import Mathlib

/-!
Verification of the vcf2exchange repository (files `vcf2ics.py` and
`vcf2exchange.py`): a shallow embedding of the birthday-calendar
conversion pipeline and the CSV contact export, together with proofs
about the specified behaviour.

Conventions of the embedding:
* Python `datetime.date` values are modelled by the `PDate` structure
  (year/month/day as `Nat`) together with the validity predicate
  `isValidDate`.
* Python functions that may raise are modelled with `Option`/`Except`.
* `datetime.strptime` for the two formats `"%Y-%m-%d"` and `"%Y%m%d"`
  is modelled after CPython's `_strptime` implementation: the format is
  turned into a regular expression (`%Y` ↦ `\d\d\d\d`,
  `%m` ↦ `1[0-2]|0[1-9]|[1-9]`,
  `%d` ↦ `3[0-1]|[1-2]\d|0[1-9]|[1-9]| [1-9]`), matched from the start
  of the string with ordered-alternation backtracking, followed by the
  unconverted-data check and the constructor validity check of
  `datetime`. `\d` matches any Unicode `Nd` digit (Python patterns are
  `str`), and `int()` converts matched groups by decimal digit values,
  ignoring the leading space of a space-padded day.
-/

/-- Python `datetime.date`: year, month, day. -/
structure PDate where
  year : Nat
  month : Nat
  day : Nat
deriving DecidableEq, Repr

/-- Gregorian leap-year rule used by Python's `datetime`. -/
def isLeapYear (y : Nat) : Bool :=
  y % 4 == 0 && (y % 100 != 0 || y % 400 == 0)

/-- Days in a month, as in Python's `calendar`/`datetime`. -/
def daysInMonth (y m : Nat) : Nat :=
  if m == 2 then (if isLeapYear y then 29 else 28)
  else if m == 4 || m == 6 || m == 9 || m == 11 then 30
  else 31

/-- The validity check performed by the `datetime.date` constructor
(`MINYEAR = 1`, `MAXYEAR = 9999`). -/
def isValidDate (d : PDate) : Bool :=
  1 ≤ d.year && d.year ≤ 9999 &&
  1 ≤ d.month && d.month ≤ 12 &&
  1 ≤ d.day && d.day ≤ daysInMonth d.year d.month

/-- Python `date.replace(year=y)`: keeps month/day, revalidates, raising
`ValueError` (modelled as `Except.error`) when the day is out of range
for the month in the new year (e.g. Feb 29 in a non-leap year). -/
def replaceYear (d : PDate) (y : Nat) : Except String PDate :=
  if d.day ≤ daysInMonth y d.month then .ok ⟨y, d.month, d.day⟩
  else .error "day is out of range for month"

/-- Python `date + timedelta(days=1)` for valid dates: the next calendar day. -/
def nextDay (d : PDate) : PDate :=
  if d.day < daysInMonth d.year d.month then ⟨d.year, d.month, d.day + 1⟩
  else if d.month < 12 then ⟨d.year, d.month + 1, 1⟩
  else ⟨d.year + 1, 1, 1⟩

/-- Strict calendar order on dates (lexicographic year/month/day). -/
def dateLt (a b : PDate) : Bool :=
  a.year < b.year ||
  (a.year == b.year && (a.month < b.month ||
    (a.month == b.month && a.day < b.day)))

/-- Zero-pad a number to two digits, as Python's `%02d`. -/
def pad2 (n : Nat) : String :=
  if n < 10 then "0" ++ toString n else toString n

/-- Zero-pad a number to four digits, as Python's `%04d`. -/
def pad4 (n : Nat) : String :=
  if n < 10 then "000" ++ toString n
  else if n < 100 then "00" ++ toString n
  else if n < 1000 then "0" ++ toString n
  else toString n

/-- Python `date.isoformat()`: `YYYY-MM-DD` with zero padding. -/
def isoformat (d : PDate) : String :=
  pad4 d.year ++ "-" ++ pad2 d.month ++ "-" ++ pad2 d.day

/-- Python `strftime("%m/%d/%Y")` as used by `outlook_date`: month and
day are zero-padded; glibc prints `%Y` without padding (years below
1000 keep their natural width). -/
def mmddyyyy (d : PDate) : String :=
  pad2 d.month ++ "/" ++ pad2 d.day ++ "/" ++ toString d.year

/-! ### strptime for the formats `%Y-%m-%d` and `%Y%m%d` -/

/-- Decimal value of an ASCII digit character, `none` otherwise. -/
def digitVal (c : Char) : Option Nat :=
  if c.isDigit then some (c.toNat - 48) else none

/-- First code points of the Unicode 14.0 `Nd` (decimal digit) ranges;
each range holds ten consecutive digits with values 0–9. Python's `re`
module matches all of them with `\d` (patterns are `str`, so Unicode
matching is the default), and `int()` converts them by their decimal
value. -/
def ndDigitStarts : List Nat :=
  [48, 1632, 1776, 1984, 2406, 2534, 2662, 2790, 2918, 3046, 3174, 3302,
   3430, 3558, 3664, 3792, 3872, 4160, 4240, 6112, 6160, 6470, 6608, 6784,
   6800, 6992, 7088, 7232, 7248, 42528, 43216, 43264, 43472, 43504, 43600,
   44016, 65296, 66720, 68912, 69734, 69872, 69942, 70096, 70384, 70736,
   70864, 71248, 71360, 71472, 71904, 72016, 72784, 73040, 73120, 73552,
   92768, 92864, 93008, 120782, 120792, 120802, 120812, 120822, 123200,
   123632, 125264]

/-- Decimal value of a character matched by the regex `\d`: any Unicode
`Nd` digit, with its `unicodedata` decimal value. -/
def reDigitVal (c : Char) : Option Nat :=
  (ndDigitStarts.find? (fun s => s ≤ c.toNat && c.toNat < s + 10)).map
    (fun s => c.toNat - s)

/-- Match `\d\d\d\d` (the regex CPython compiles for `%Y`). -/
def matchY4 : List Char → Option (Nat × List Char)
  | c0 :: c1 :: c2 :: c3 :: rest =>
    match reDigitVal c0, reDigitVal c1, reDigitVal c2, reDigitVal c3 with
    | some a, some b, some c, some d => some (a * 1000 + b * 100 + c * 10 + d, rest)
    | _, _, _, _ => none
  | _ => none

/-- The ordered alternatives of CPython's regex for `%m`:
`1[0-2]`, `0[1-9]`, `[1-9]`. -/
def monthAlts : List (List Char → Option (Nat × List Char)) :=
  [fun cs => match cs with
    | '1' :: c :: rest =>
      if '0' ≤ c && c ≤ '2' then some (10 + (c.toNat - 48), rest) else none
    | _ => none,
   fun cs => match cs with
    | '0' :: c :: rest =>
      if '1' ≤ c && c ≤ '9' then some (c.toNat - 48, rest) else none
    | _ => none,
   fun cs => match cs with
    | c :: rest =>
      if '1' ≤ c && c ≤ '9' then some (c.toNat - 48, rest) else none
    | _ => none]

/-- The ordered alternatives of CPython's regex for `%d`:
`3[0-1]`, `[1-2]\d`, `0[1-9]`, `[1-9]`, `' [1-9]'` (an ASCII space
followed by a digit, for space-padded days). -/
def dayAlts : List (List Char → Option (Nat × List Char)) :=
  [fun cs => match cs with
    | '3' :: c :: rest =>
      if '0' ≤ c && c ≤ '1' then some (30 + (c.toNat - 48), rest) else none
    | _ => none,
   fun cs => match cs with
    | c :: c' :: rest =>
      match reDigitVal c' with
      | some v => if '1' ≤ c && c ≤ '2' then some ((c.toNat - 48) * 10 + v, rest) else none
      | none => none
    | _ => none,
   fun cs => match cs with
    | '0' :: c :: rest =>
      if '1' ≤ c && c ≤ '9' then some (c.toNat - 48, rest) else none
    | _ => none,
   fun cs => match cs with
    | c :: rest =>
      if '1' ≤ c && c ≤ '9' then some (c.toNat - 48, rest) else none
    | _ => none,
   fun cs => match cs with
    | ' ' :: c :: rest =>
      if '1' ≤ c && c ≤ '9' then some (c.toNat - 48, rest) else none
    | _ => none]

/-- Ordered-alternation matching with backtracking: try each alternative
in order; on a match run the continuation, and if the continuation fails
fall through to the next alternative (regex backtracking). -/
def tryAlts {α : Type} (alts : List (List Char → Option (Nat × List Char)))
    (cs : List Char) (k : Nat → List Char → Option α) : Option α :=
  match alts with
  | [] => none
  | a :: rest =>
    match a cs with
    | some (n, cs') =>
      match k n cs' with
      | some r => some r
      | none => tryAlts rest cs k
    | none => tryAlts rest cs k

/-- Regex phase of `strptime(s, "%Y-%m-%d")`: the leftmost match of
`\d\d\d\d\-(%m alts)\-(%d alts)` anchored at the start, returning
year, month, day and the unconsumed remainder. -/
def matchExtended (cs : List Char) : Option (Nat × Nat × Nat × List Char) :=
  match matchY4 cs with
  | none => none
  | some (y, cs1) =>
    match cs1 with
    | '-' :: cs2 =>
      tryAlts monthAlts cs2 (fun m cs3 =>
        match cs3 with
        | '-' :: cs4 => tryAlts dayAlts cs4 (fun d cs5 => some (y, m, d, cs5))
        | _ => none)
    | _ => none

/-- Regex phase of `strptime(s, "%Y%m%d")`: the leftmost match of
`\d\d\d\d(%m alts)(%d alts)` anchored at the start. -/
def matchCompact (cs : List Char) : Option (Nat × Nat × Nat × List Char) :=
  match matchY4 cs with
  | none => none
  | some (y, cs1) =>
    tryAlts monthAlts cs1 (fun m cs2 =>
      tryAlts dayAlts cs2 (fun d cs3 => some (y, m, d, cs3)))

/-- After the regex phase, `_strptime` rejects unconverted trailing data,
and the `datetime` constructor validates the date. -/
def finishStrptime (r : Option (Nat × Nat × Nat × List Char)) : Option PDate :=
  match r with
  | some (y, m, d, []) =>
    let dt : PDate := ⟨y, m, d⟩
    if isValidDate dt then some dt else none
  | _ => none

/-- Model of `datetime.strptime(s, "%Y-%m-%d").date()`, `none` for `ValueError`. -/
def strptimeExtended (s : String) : Option PDate :=
  finishStrptime (matchExtended s.data)

/-- Model of `datetime.strptime(s, "%Y%m%d").date()`, `none` for `ValueError`. -/
def strptimeCompact (s : String) : Option PDate :=
  finishStrptime (matchCompact s.data)

/-- Function `parse_birthday` from `vcf2ics.py`: try `"%Y-%m-%d"` then
`"%Y%m%d"`, returning the first successful parse, else `None`. -/
def parse_birthday (s : String) : Option PDate :=
  match strptimeExtended s with
  | some d => some d
  | none => strptimeCompact s

/-- Function `outlook_date` from `vcf2exchange.py`: empty string for empty input,
else the first of the two formats that parses rendered as `%m/%d/%Y`,
else the empty string. -/
def outlook_date (s : String) : String :=
  if s = "" then ""
  else
    match strptimeExtended s with
    | some d => mmddyyyy d
    | none =>
      match strptimeCompact s with
      | some d => mmddyyyy d
      | none => ""

/-! ### SHA-1 (`hashlib.sha1`) over byte lists -/

/-- Truncation to a 32-bit word. -/
def w32 (n : Nat) : Nat := n % 4294967296

/-- Left rotation of a 32-bit word. -/
def rotl (n x : Nat) : Nat :=
  w32 ((x <<< n) ||| (x >>> (32 - n)))

/-- Big-endian 32-bit words from a byte list. -/
def bytesToWords : List Nat → List Nat
  | b0 :: b1 :: b2 :: b3 :: rest =>
    (b0 * 16777216 + b1 * 65536 + b2 * 256 + b3) :: bytesToWords rest
  | _ => []

/-- Eight big-endian bytes of a 64-bit value. -/
def be8 (n : Nat) : List Nat :=
  [(n >>> 56) % 256, (n >>> 48) % 256, (n >>> 40) % 256, (n >>> 32) % 256,
   (n >>> 24) % 256, (n >>> 16) % 256, (n >>> 8) % 256, n % 256]

/-- SHA-1 message padding: append `0x80`, zeros up to 56 mod 64, then the
bit length as eight big-endian bytes. -/
def sha1Pad (msg : List Nat) : List Nat :=
  let ml := msg.length
  let z := (119 - ml % 64) % 64
  msg ++ [128] ++ List.replicate z 0 ++ be8 (ml * 8)

/-- Split a byte list into 64-byte chunks (`fuel` bounds the recursion
depth; `chunks64` supplies fuel `length l`, which always suffices). -/
def chunks64Go (fuel : Nat) (l : List Nat) : List (List Nat) :=
  match fuel, l with
  | 0, _ => []
  | _, [] => []
  | f + 1, b :: rest => (b :: rest).take 64 :: chunks64Go f ((b :: rest).drop 64)

/-- Split a byte list into 64-byte chunks. -/
def chunks64 (l : List Nat) : List (List Nat) :=
  chunks64Go l.length l

/-- Extend the 16 message words of a chunk to 80 (`n` pushes left). -/
def expandW (w : Array Nat) : Nat → Array Nat
  | 0 => w
  | n + 1 =>
    let s := w.size
    expandW (w.push (rotl 1
      (w.getD (s - 3) 0 ^^^ w.getD (s - 8) 0 ^^^ w.getD (s - 14) 0 ^^^ w.getD (s - 16) 0))) n

/-- The SHA-1 round function. -/
def sha1F (i b c d : Nat) : Nat :=
  if i < 20 then (b &&& c) ||| ((b ^^^ 4294967295) &&& d)
  else if i < 40 then b ^^^ c ^^^ d
  else if i < 60 then (b &&& c) ||| (b &&& d) ||| (c &&& d)
  else b ^^^ c ^^^ d

/-- The SHA-1 round constants. -/
def sha1K (i : Nat) : Nat :=
  if i < 20 then 1518500249
  else if i < 40 then 1859775393
  else if i < 60 then 2400959708
  else 3395469782

/-- One SHA-1 compression step. -/
def sha1Step (w : Array Nat) (st : Nat × Nat × Nat × Nat × Nat) (i : Nat) :
    Nat × Nat × Nat × Nat × Nat :=
  match st with
  | (a, b, c, d, e) =>
    let t := w32 (rotl 5 a + sha1F i b c d + e + sha1K i + w.getD i 0)
    (t, a, rotl 30 b, c, d)

/-- Process one 64-byte chunk, updating the five hash words. -/
def sha1Chunk (h : Nat × Nat × Nat × Nat × Nat) (chunk : List Nat) :
    Nat × Nat × Nat × Nat × Nat :=
  match h with
  | (h0, h1, h2, h3, h4) =>
    let w := expandW (Array.mk (bytesToWords chunk)) 64
    match (List.range 80).foldl (sha1Step w) (h0, h1, h2, h3, h4) with
    | (a, b, c, d, e) =>
      (w32 (h0 + a), w32 (h1 + b), w32 (h2 + c), w32 (h3 + d), w32 (h4 + e))

/-- The five final SHA-1 state words of a byte message. -/
def sha1Words (msg : List Nat) : Nat × Nat × Nat × Nat × Nat :=
  (chunks64 (sha1Pad msg)).foldl sha1Chunk
    (1732584193, 4023233417, 2562383102, 271733878, 3285377520)

/-- Lower-case hex digit. -/
def hexChar (n : Nat) : Char :=
  if n < 10 then Char.ofNat (48 + n) else Char.ofNat (87 + n)

/-- Eight lower-case hex digits of a 32-bit word. -/
def hexWord (n : Nat) : String :=
  String.mk ([28, 24, 20, 16, 12, 8, 4, 0].map (fun s => hexChar ((n >>> s) % 16)))

/-- Model of `hashlib.sha1(bytes).hexdigest()`. -/
def sha1Hex (msg : List Nat) : String :=
  match sha1Words msg with
  | (a, b, c, d, e) => hexWord a ++ hexWord b ++ hexWord c ++ hexWord d ++ hexWord e

/-- Python `s.encode("utf-8")` as a list of byte values (the byte list of
`String.toUTF8`, unfolded to its definition so that it computes by
structural recursion). -/
def utf8Bytes (s : String) : List Nat :=
  (s.data.flatMap String.utf8EncodeChar).map (fun b => b.toNat)

/-- Function `make_uid` from `vcf2ics.py`:
`base = f"{name}-{birthday.isoformat()}"`, SHA-1 hex digest of its UTF-8
bytes, wrapped as `birthday-<hex>@local`. -/
def make_uid (name : String) (birthday : PDate) : String :=
  let base := name ++ "-" ++ isoformat birthday
  let digest := sha1Hex (utf8Bytes base)
  "birthday-" ++ digest ++ "@local"

/-- Modelled from the spec's words for the Identity Hasher contract
(§4.2): concatenate `name + "-" + birthDate.isoformat()` into one UTF-8
byte string, compute the SHA-1 digest, hex-encode, and wrap as
`"birthday-<hex>@local"`. Used only to compare with `make_uid`. -/
def uidSpec (name : String) (birthday : PDate) : String :=
  "birthday-" ++ sha1Hex (utf8Bytes (name ++ "-" ++ isoformat birthday)) ++ "@local"

/-! ### The ICS conversion pipeline of `vcf2ics.py` -/

/-- The module-level constant `TZID = "Europe/Berlin"`. -/
def TZID : String := "Europe/Berlin"

/-- The yearly recurrence rule added to each event
(`freq`/`interval`/`bymonth`/`bymonthday`). -/
structure RRuleData where
  freq : String
  interval : Nat
  bymonth : Nat
  bymonthday : Nat
deriving DecidableEq, Repr

/-- A `VALARM` as built by the loop body: `ACTION`, an absolute naive
`TRIGGER` timestamp (`datetime.combine(event_date, time(h, m))`) and the
`TZID` parameter set on the trigger. -/
structure AlarmData where
  action : String
  triggerDate : PDate
  triggerHour : Nat
  triggerMinute : Nat
  tzidParam : String
deriving DecidableEq, Repr

/-- A `VEVENT` as built by the loop body of `main`. `dtstart` and
`dtend` hold `date` values (not `datetime`), i.e. all-day DATE bounds. -/
structure BEvent where
  uid : String
  summary : String
  description : String
  dtstart : PDate
  dtend : PDate
  rrule : RRuleData
  alarms : List AlarmData
deriving DecidableEq, Repr

/-- One parsed vCard as consumed by `vcf2ics.main`: the optional `BDAY`
value and the `given`/`family` parts of `N` (`getattr(..., "given", "")`
yields `""` when the part is absent, so both are plain strings). -/
structure Card where
  bday : Option String
  given : String
  family : String
deriving DecidableEq, Repr

/-- Display name: `" ".join(filter(None, [given, family])) or "Unknown"`. -/
def displayName (c : Card) : String :=
  let joined := String.intercalate " " ([c.given, c.family].filter (fun s => s ≠ ""))
  if joined = "" then "Unknown" else joined

/-- Python `str.split(":")` on the character list: split at every colon. -/
def splitOnColon : List Char → List (List Char)
  | [] => [[]]
  | c :: rest =>
    match splitOnColon rest with
    | [] => []
    | g :: gs => if c = ':' then [] :: g :: gs else (c :: g) :: gs

/-- Accumulate decimal digits; `none` on a non-digit. -/
def digitsVal (acc : Nat) : List Char → Option Nat
  | [] => some acc
  | c :: rest =>
    match digitVal c with
    | some v => digitsVal (acc * 10 + v) rest
    | none => none

/-- Python `int(field)` for the plain decimal fields of a `HH:MM` string
(signs and surrounding whitespace are not modelled). -/
def decimalNat : List Char → Option Nat
  | [] => none
  | cs => digitsVal 0 cs

/-- Model of `reminder_hour, reminder_minute = map(int, args.reminder_time.split(":"))`:
the split must yield exactly two integer fields. -/
def parseReminderTime (s : String) : Option (Nat × Nat) :=
  match (splitOnColon s.data).map decimalNat with
  | [some h, some m] => some (h, m)
  | _ => none

/-- The loop body of `vcf2ics.main` for one card, with the impure reads
made explicit: `refYear` is `date.today().year` and `hour`/`minute` the
parsed `--reminder-time`. Returns `.ok none` when the card is skipped
(`continue`), `.ok (some e)` when the event `e` is appended to the
calendar, and `.error` when an uncaught `ValueError` aborts the run. -/
def processCard (refYear hour minute : Nat) (c : Card) : Except String (Option BEvent) :=
  match c.bday with
  | none => .ok none
  | some raw =>
    match parse_birthday raw with
    | none => .ok none
    | some birthday =>
      let name := displayName c
      match replaceYear birthday refYear with
      | .error e => .error e
      | .ok eventDate =>
        .ok (some
          { uid := make_uid name birthday
            summary := "Geburtstag: " ++ name
            description := "Gebrutstag von " ++ name ++ " am " ++ isoformat birthday
            dtstart := eventDate
            dtend := nextDay eventDate
            rrule := { freq := "YEARLY", interval := 1,
                       bymonth := birthday.month, bymonthday := birthday.day }
            alarms := [{ action := "DISPLAY", triggerDate := eventDate,
                         triggerHour := hour, triggerMinute := minute,
                         tzidParam := TZID }] })

/-- The birthday a card contributes, if any: `BDAY` present and parseable. -/
def cardBirthday (c : Card) : Option PDate :=
  match c.bday with
  | none => none
  | some raw => parse_birthday raw

/-! ### The CSV export of `vcf2exchange.py` -/

/-- One parsed vCard as consumed by `vcf2exchange.convert`: optional `N`
(given/family), `ORG`, `TITLE`, the `EMAIL` list, the `TEL` list (each
with its `TYPE` parameter values), optional `BDAY` and `NOTE`. -/
structure CsvCard where
  n : Option (String × String)
  org : Option (List String)
  title : Option String
  emails : List String
  tels : List (List String × String)
  bday : Option String
  note : Option String
deriving Repr

/-- The columns of the Microsoft CSV row that `convert` ever assigns;
every other column always keeps the empty string it was initialised
with (`row = {h: "" for h in CSV_HEADERS}`). -/
structure Row where
  firstName : String := ""
  lastName : String := ""
  company : String := ""
  jobTitle : String := ""
  email : String := ""
  mobilePhone : String := ""
  businessPhone : String := ""
  homePhone : String := ""
  birthday : String := ""
  notes : String := ""
deriving DecidableEq, Repr

/-- The `for tel in ...` body: uppercase the `TYPE` values and route the
number by `CELL`/`WORK`/`HOME` (first matching branch wins; a phone with
none of the three types leaves the row unchanged). -/
def applyTel (r : Row) (tel : List String × String) : Row :=
  let t := tel.1.map String.toUpper
  if t.contains "CELL" then { r with mobilePhone := tel.2 }
  else if t.contains "WORK" then { r with businessPhone := tel.2 }
  else if t.contains "HOME" then { r with homePhone := tel.2 }
  else r

/-- The per-card body of `vcf2exchange.convert`: build the row that
`writer.writerow` emits (one row for every card, unconditionally). -/
def makeRow (c : CsvCard) : Row :=
  let r : Row := {}
  let r := match c.n with
    | some (given, family) => { r with firstName := given, lastName := family }
    | none => r
  let r := match c.org with
    | some parts => { r with company := String.intercalate " " parts }
    | none => r
  let r := match c.title with
    | some t => { r with jobTitle := t }
    | none => r
  let r := match c.emails with
    | e :: _ => { r with email := e }
    | [] => r
  let r := c.tels.foldl applyTel r
  let r := match c.bday with
    | some b => { r with birthday := outlook_date b }
    | none => r
  match c.note with
  | some note => { r with notes := ((note.replace "\n" " ").trim) }
  | none => r

/-- Phones whose uppercased `TYPE` values contain `t`. -/
def telsWithType (c : CsvCard) (t : String) : List (List String × String) :=
  c.tels.filter (fun tel => (tel.1.map String.toUpper).contains t)

/-- A phone is routed to `Mobile Phone`: its uppercased `TYPE` values
contain `CELL` (the first branch of the `if`/`elif` chain). -/
def telGoesMobile (tel : List String × String) : Bool :=
  (tel.1.map String.toUpper).contains "CELL"

/-- A phone is routed to `Business Phone`: no `CELL`, but `WORK`. -/
def telGoesBusiness (tel : List String × String) : Bool :=
  !(tel.1.map String.toUpper).contains "CELL" &&
  (tel.1.map String.toUpper).contains "WORK"

/-- A phone is routed to `Home Phone`: no `CELL`, no `WORK`, but `HOME`. -/
def telGoesHome (tel : List String × String) : Bool :=
  !(tel.1.map String.toUpper).contains "CELL" &&
  !(tel.1.map String.toUpper).contains "WORK" &&
  (tel.1.map String.toUpper).contains "HOME"

/-- The contact of end-to-end scenario 1: name "Ada Lovelace", birth
date `1815-12-10`. -/
def adaCard : Card :=
  { bday := some "1815-12-10", given := "Ada", family := "Lovelace" }

/-- The event `vcf2ics.main` builds for `adaCard` when run in reference
year 2024 with reminder time 09:00 (the UID digest is
`sha1("Ada Lovelace-1815-12-10")`). -/
def adaEvent : BEvent :=
  { uid := "birthday-5f351b2270d219301368b8336814d5cab9b0ae4f@local"
    summary := "Geburtstag: Ada Lovelace"
    description := "Gebrutstag von Ada Lovelace am 1815-12-10"
    dtstart := ⟨2024, 12, 10⟩
    dtend := ⟨2024, 12, 11⟩
    rrule := { freq := "YEARLY", interval := 1, bymonth := 12, bymonthday := 10 }
    alarms := [{ action := "DISPLAY", triggerDate := ⟨2024, 12, 10⟩,
                 triggerHour := 9, triggerMinute := 0, tzidParam := "Europe/Berlin" }] }

/-! ### Helper lemmas -/

set_option maxRecDepth 10000 in
/-- SHA-1 test vector: the embedded digest agrees with FIPS 180 on
`"abc"` (and hence with `hashlib.sha1`). -/
theorem sha1Hex_abc : sha1Hex (utf8Bytes "abc") = "a9993e364706816aba3e25717850c26c9cd0d89d" := by
  rfl

set_option maxRecDepth 10000 in
/-- SHA-1 test vector: the empty message. -/
theorem sha1Hex_empty : sha1Hex [] = "da39a3ee5e6b4b0d3255bfef95601890afd80709" := by
  rfl

/-- Lemma: `nextDay` strictly increases the calendar order, for every date. -/
theorem dateLt_nextDay (d : PDate) : dateLt d (nextDay d) = true := by
  unfold nextDay dateLt
  split
  · simp
  · split <;> simp

/-- Inversion of the loop body: when `processCard` emits an event, the
card's `BDAY` parsed to some `b`, the projection onto the reference year
succeeded, and the event is exactly the record built by the loop. -/
theorem processCard_ok_some {y h m : Nat} {c : Card} {e : BEvent}
    (he : processCard y h m c = .ok (some e)) :
    ∃ raw b, c.bday = some raw ∧ parse_birthday raw = some b ∧
      b.day ≤ daysInMonth y b.month ∧
      e = { uid := make_uid (displayName c) b
            summary := "Geburtstag: " ++ displayName c
            description := "Gebrutstag von " ++ displayName c ++ " am " ++ isoformat b
            dtstart := ⟨y, b.month, b.day⟩
            dtend := nextDay ⟨y, b.month, b.day⟩
            rrule := { freq := "YEARLY", interval := 1,
                       bymonth := b.month, bymonthday := b.day }
            alarms := [{ action := "DISPLAY", triggerDate := ⟨y, b.month, b.day⟩,
                         triggerHour := h, triggerMinute := m,
                         tzidParam := TZID }] } := by
  obtain ⟨cb, cg, cf⟩ := c
  cases cb with
  | none => simp [processCard] at he
  | some raw =>
    simp only [processCard] at he
    cases hp : parse_birthday raw with
    | none => simp [hp] at he
    | some b =>
      simp only [hp] at he
      cases hr : replaceYear b y with
      | error msg => rw [hr] at he; simp at he
      | ok ed =>
        rw [hr] at he
        simp only [Except.ok.injEq, Option.some.injEq] at he
        have hre := hr
        unfold replaceYear at hre
        split at hre
        · injection hre with hed
          refine ⟨raw, b, rfl, hp, by omega, ?_⟩
          rw [← hed] at he
          exact he.symm
        · cases hre

/-- C1: for every contact with a valid birth date whose conversion emits
an event, the event's recurrence rule is `FREQ=YEARLY` with `BYMONTH`
the birth month and `BYMONTHDAY` the birth day, the occurrence date is
the birth month/day combined with the reference year, and the invariant
`occurrenceDate.month == anchorMonth && occurrenceDate.day == anchorDay`
holds. -/
theorem C1_yearly_rrule_anchors_birthdate (y h m : Nat) (c : Card) (b : PDate) (e : BEvent)
    (hb : cardBirthday c = some b)
    (he : processCard y h m c = .ok (some e)) :
    e.rrule = { freq := "YEARLY", interval := 1, bymonth := b.month, bymonthday := b.day } ∧
    e.dtstart = ⟨y, b.month, b.day⟩ ∧
    e.dtstart.month = e.rrule.bymonth ∧
    e.dtstart.day = e.rrule.bymonthday := by
  obtain ⟨raw, b', hraw, hp, hle, rfl⟩ := processCard_ok_some he
  have hbb : b' = b := by
    simp only [cardBirthday, hraw, hp, Option.some.injEq] at hb
    exact hb
  subst hbb
  exact ⟨rfl, rfl, rfl, rfl⟩

set_option maxRecDepth 100000 in
/-- Witness for C1: the Ada Lovelace contact, reference year 2024. -/
theorem C1_yearly_rrule_anchors_birthdate_witness :
    cardBirthday adaCard = some ⟨1815, 12, 10⟩ ∧
    processCard 2024 9 0 adaCard = .ok (some adaEvent) ∧
    (adaEvent.rrule = { freq := "YEARLY", interval := 1, bymonth := 12, bymonthday := 10 } ∧
     adaEvent.dtstart = ⟨2024, 12, 10⟩ ∧
     adaEvent.dtstart.month = adaEvent.rrule.bymonth ∧
     adaEvent.dtstart.day = adaEvent.rrule.bymonthday) :=
  ⟨rfl, rfl, C1_yearly_rrule_anchors_birthdate 2024 9 0 adaCard ⟨1815, 12, 10⟩ adaEvent rfl rfl⟩

/-- C2: the claim says a Feb 29 birth date with a non-leap reference
year still converts without a fatal error; in the code
`birthday.replace(year=today.year)` raises an uncaught `ValueError`
(`day is out of range for month`) and the run aborts. -/
theorem C2_feb29_projection_fatal :
    parse_birthday "2000-02-29" = some ⟨2000, 2, 29⟩ ∧
    isLeapYear 2023 = false ∧
    processCard 2023 9 0 { bday := some "2000-02-29", given := "Leap", family := "Day" } =
      .error "day is out of range for month" :=
  ⟨rfl, rfl, rfl⟩

/-- C3: every emitted event carries exactly one alarm, of display type,
whose trigger is the absolute local timestamp combining the occurrence
date with the configured reminder clock time, tagged with the timezone
identifier; the default reminder time string `"09:00"` parses to 09:00. -/
theorem C3_single_absolute_alarm (y h m : Nat) (c : Card) (e : BEvent)
    (he : processCard y h m c = .ok (some e)) :
    e.alarms = [{ action := "DISPLAY", triggerDate := e.dtstart,
                  triggerHour := h, triggerMinute := m, tzidParam := TZID }] ∧
    parseReminderTime "09:00" = some (9, 0) := by
  obtain ⟨raw, b, hraw, hp, hle, rfl⟩ := processCard_ok_some he
  exact ⟨rfl, rfl⟩

set_option maxRecDepth 100000 in
/-- Witness for C3: the Ada Lovelace contact, reference year 2024,
reminder 09:00. -/
theorem C3_single_absolute_alarm_witness :
    processCard 2024 9 0 adaCard = .ok (some adaEvent) ∧
    (adaEvent.alarms = [{ action := "DISPLAY", triggerDate := adaEvent.dtstart,
                          triggerHour := 9, triggerMinute := 0, tzidParam := TZID }] ∧
     parseReminderTime "09:00" = some (9, 0)) :=
  ⟨rfl, C3_single_absolute_alarm 2024 9 0 adaCard adaEvent rfl⟩

set_option maxRecDepth 100000 in
/-- C4 counterexample: the timezone identifier is not UTC — it is the
hard-coded constant `"Europe/Berlin"`, and the alarm of the scenario's
single event is tagged `TZID=Europe/Berlin`, so it does not fire at
`2024-12-10T09:00:00Z`. -/
theorem C4_tzid_not_utc :
    TZID ≠ "UTC" ∧
    processCard 2024 9 0 adaCard = .ok (some adaEvent) ∧
    adaEvent.alarms.map AlarmData.tzidParam = ["Europe/Berlin"] :=
  ⟨by decide, rfl, rfl⟩

set_option maxRecDepth 100000 in
/-- C4 amended: there is no timezone configuration option; the timezone
identifier is the fixed constant `Europe/Berlin`. For one contact with
birth date 1815-12-10, reference year 2024 and reminder 09:00, the
single emitted alarm triggers at local 2024-12-10T09:00:00 tagged with
`TZID=Europe/Berlin`. -/
theorem C4_fixed_berlin_tzid :
    TZID = "Europe/Berlin" ∧
    processCard 2024 9 0 adaCard = .ok (some adaEvent) ∧
    adaEvent.alarms = [{ action := "DISPLAY", triggerDate := ⟨2024, 12, 10⟩,
                         triggerHour := 9, triggerMinute := 0,
                         tzidParam := "Europe/Berlin" }] :=
  ⟨rfl, rfl, rfl⟩

/-- C5: `make_uid` is a pure deterministic function equal to the
spec's formula: `"birthday-"` ++ hex(SHA-1(UTF-8(name ++ "-" ++
isoformat))) ++ `"@local"`; identical inputs give the identical
string. -/
theorem C5_uid_pure_deterministic (name : String) (b : PDate) :
    make_uid name b = uidSpec name b ∧
    make_uid name b =
      "birthday-" ++ sha1Hex (utf8Bytes (name ++ "-" ++ isoformat b)) ++ "@local" ∧
    make_uid name b = make_uid name b :=
  ⟨rfl, rfl, rfl⟩

/-- Lemma: `applyTel` never touches the e-mail column. -/
theorem applyTel_email (r : Row) (t : List String × String) :
    (applyTel r t).email = r.email := by
  simp only [applyTel]
  split
  · rfl
  · split
    · rfl
    · split <;> rfl

/-- The phone fold never touches the e-mail column. -/
theorem foldl_applyTel_email (tels : List (List String × String)) (r : Row) :
    (tels.foldl applyTel r).email = r.email := by
  induction tels generalizing r with
  | nil => rfl
  | cons t ts ih => rw [List.foldl_cons, ih, applyTel_email]

/-- C8: every emitted event's all-day bounds are dates with an
exclusive end one day after the start, so the event spans a non-empty
one-day range. -/
theorem C8_exclusive_end_next_day (y h m : Nat) (c : Card) (e : BEvent)
    (he : processCard y h m c = .ok (some e)) :
    e.dtend = nextDay e.dtstart ∧ dateLt e.dtstart e.dtend = true := by
  obtain ⟨raw, b, hraw, hp, hle, rfl⟩ := processCard_ok_some he
  exact ⟨rfl, dateLt_nextDay _⟩

set_option maxRecDepth 100000 in
/-- Witness for C8: the Ada Lovelace contact. -/
theorem C8_exclusive_end_next_day_witness :
    processCard 2024 9 0 adaCard = .ok (some adaEvent) ∧
    (adaEvent.dtend = nextDay adaEvent.dtstart ∧
     dateLt adaEvent.dtstart adaEvent.dtend = true) :=
  ⟨rfl, C8_exclusive_end_next_day 2024 9 0 adaCard adaEvent rfl⟩

set_option maxRecDepth 100000 in
/-- C9 counterexample: the emitted summary is not the contact's display
name — it carries the fixed `Geburtstag: ` marker in front. -/
theorem C9_summary_not_display_name :
    processCard 2024 9 0 adaCard = .ok (some adaEvent) ∧
    displayName adaCard = "Ada Lovelace" ∧
    adaEvent.summary = "Geburtstag: Ada Lovelace" ∧
    adaEvent.summary ≠ displayName adaCard :=
  ⟨rfl, rfl, rfl, by decide⟩

/-- C9 amended: for every contact with a valid birthday, the emitted
event's summary is the fixed marker `"Geburtstag: "` followed by the
contact's display name (given and family joined), and its description
ends with the literal ISO birth date. -/
theorem C9_summary_marker_description_date (y h m : Nat) (c : Card) (b : PDate) (e : BEvent)
    (hb : cardBirthday c = some b)
    (he : processCard y h m c = .ok (some e)) :
    e.summary = "Geburtstag: " ++ displayName c ∧
    e.description = "Gebrutstag von " ++ displayName c ++ " am " ++ isoformat b := by
  obtain ⟨raw, b', hraw, hp, hle, rfl⟩ := processCard_ok_some he
  have hbb : b' = b := by
    simp only [cardBirthday, hraw, hp, Option.some.injEq] at hb
    exact hb
  subst hbb
  exact ⟨rfl, rfl⟩

set_option maxRecDepth 100000 in
/-- Witness for C9 (amended): the Ada Lovelace contact. -/
theorem C9_summary_marker_description_date_witness :
    cardBirthday adaCard = some ⟨1815, 12, 10⟩ ∧
    processCard 2024 9 0 adaCard = .ok (some adaEvent) ∧
    (adaEvent.summary = "Geburtstag: " ++ displayName adaCard ∧
     adaEvent.description =
       "Gebrutstag von " ++ displayName adaCard ++ " am " ++ isoformat ⟨1815, 12, 10⟩) :=
  ⟨rfl, rfl, C9_summary_marker_description_date 2024 9 0 adaCard ⟨1815, 12, 10⟩ adaEvent rfl rfl⟩

/-- The phone fold assigns, into the column selected by `p`, the value
of the last processed phone satisfying `p` (and keeps the previous
content when no phone matches). -/
theorem foldl_applyTel_route (f : Row → String) (p : List String × String → Bool)
    (hf : ∀ r t, f (applyTel r t) = if p t then t.2 else f r)
    (tels : List (List String × String)) (r : Row) :
    f (tels.foldl applyTel r) =
      (((tels.filter p).getLast?).map Prod.snd).getD (f r) := by
  induction tels generalizing r with
  | nil => rfl
  | cons t ts ih =>
    rw [List.foldl_cons, ih, hf]
    by_cases hp : p t
    · rw [List.filter_cons_of_pos hp, if_pos hp]
      cases hfp : ts.filter p with
      | nil => simp
      | cons b bs =>
        rw [List.getLast?_cons_cons]
        cases hbl : (b :: bs).getLast? with
        | none => simp at hbl
        | some v => simp [hbl]
    · rw [List.filter_cons_of_neg (by simpa using hp), if_neg hp]

/-- Lemma: `applyTel` writes the mobile column exactly for `CELL`-typed
phones. -/
theorem applyTel_mobile (r : Row) (t : List String × String) :
    (applyTel r t).mobilePhone = if telGoesMobile t then t.2 else r.mobilePhone := by
  simp only [applyTel]
  split
  · next hc =>
    rw [show telGoesMobile t = true by
      simp only [telGoesMobile, hc]]
    rfl
  · next hc =>
    rw [Bool.not_eq_true] at hc
    rw [show telGoesMobile t = false by
      simp only [telGoesMobile, hc]]
    split
    · rfl
    · split <;> rfl

/-- Lemma: `applyTel` writes the business column exactly for phones typed
`WORK` but not `CELL`. -/
theorem applyTel_business (r : Row) (t : List String × String) :
    (applyTel r t).businessPhone = if telGoesBusiness t then t.2 else r.businessPhone := by
  simp only [applyTel]
  split
  · next hc =>
    rw [show telGoesBusiness t = false by
      simp only [telGoesBusiness, hc, Bool.not_true, Bool.false_and]]
    rfl
  · next hc =>
    rw [Bool.not_eq_true] at hc
    split
    · next hw =>
      rw [show telGoesBusiness t = true by
        simp only [telGoesBusiness, hc, hw, Bool.not_false, Bool.true_and]]
      rfl
    · next hw =>
      rw [Bool.not_eq_true] at hw
      rw [show telGoesBusiness t = false by
        simp only [telGoesBusiness, hc, hw, Bool.not_false, Bool.true_and]]
      split <;> rfl

/-- Lemma: `applyTel` writes the home column exactly for phones typed `HOME`
but neither `CELL` nor `WORK`. -/
theorem applyTel_home (r : Row) (t : List String × String) :
    (applyTel r t).homePhone = if telGoesHome t then t.2 else r.homePhone := by
  simp only [applyTel]
  split
  · next hc =>
    rw [show telGoesHome t = false by
      simp only [telGoesHome, hc, Bool.not_true, Bool.false_and]]
    rfl
  · next hc =>
    rw [Bool.not_eq_true] at hc
    split
    · next hw =>
      rw [show telGoesHome t = false by
        simp only [telGoesHome, hc, hw, Bool.not_false, Bool.not_true,
          Bool.true_and, Bool.false_and]]
      rfl
    · next hw =>
      rw [Bool.not_eq_true] at hw
      split
      · next hh =>
        rw [show telGoesHome t = true by
          simp only [telGoesHome, hc, hw, hh, Bool.not_false, Bool.true_and]]
        rfl
      · next hh =>
        rw [Bool.not_eq_true] at hh
        rw [show telGoesHome t = false by
          simp only [telGoesHome, hc, hw, hh, Bool.not_false, Bool.true_and, Bool.and_false]]
        rfl

/-- The mobile column after the phone fold: the last `CELL` phone. -/
theorem foldl_applyTel_mobile (tels : List (List String × String)) (r : Row) :
    (tels.foldl applyTel r).mobilePhone =
      (((tels.filter telGoesMobile).getLast?).map Prod.snd).getD r.mobilePhone :=
  foldl_applyTel_route Row.mobilePhone telGoesMobile applyTel_mobile tels r

/-- The business column after the phone fold: the last `WORK`-not-`CELL`
phone. -/
theorem foldl_applyTel_business (tels : List (List String × String)) (r : Row) :
    (tels.foldl applyTel r).businessPhone =
      (((tels.filter telGoesBusiness).getLast?).map Prod.snd).getD r.businessPhone :=
  foldl_applyTel_route Row.businessPhone telGoesBusiness applyTel_business tels r

/-- The home column after the phone fold: the last `HOME`-only phone. -/
theorem foldl_applyTel_home (tels : List (List String × String)) (r : Row) :
    (tels.foldl applyTel r).homePhone =
      (((tels.filter telGoesHome).getLast?).map Prod.snd).getD r.homePhone :=
  foldl_applyTel_route Row.homePhone telGoesHome applyTel_home tels r

/-- C10: in the CSV export only the first listed e-mail address reaches
the `E-mail Address` column, and each phone is routed by its `TYPE`
with precedence `CELL` over `WORK` over `HOME` (untyped phones are
dropped; within a category the last processed phone occupies the
column). -/
theorem C10_csv_email_phone_routing (cc : CsvCard) :
    (makeRow cc).email = cc.emails.headD "" ∧
    (makeRow cc).mobilePhone =
      (((cc.tels.filter telGoesMobile).getLast?).map Prod.snd).getD "" ∧
    (makeRow cc).businessPhone =
      (((cc.tels.filter telGoesBusiness).getLast?).map Prod.snd).getD "" ∧
    (makeRow cc).homePhone =
      (((cc.tels.filter telGoesHome).getLast?).map Prod.snd).getD "" := by
  obtain ⟨cn, corg, ctitle, cemails, ctels, cbday, cnote⟩ := cc
  refine ⟨?_, ?_, ?_, ?_⟩ <;>
    rcases cn with _ | ⟨g, f⟩ <;> cases corg <;> cases ctitle <;> cases cemails <;>
      cases cbday <;> cases cnote <;>
        simp [makeRow, foldl_applyTel_email, foldl_applyTel_mobile,
          foldl_applyTel_business, foldl_applyTel_home]
